import Mathlib

/-!
# Verification of the `soccerai` feature-engineering and preprocessing pipeline

A shallow embedding of `src/soccerai/data/dataset.py` (class
`WorldCup2022Dataset`) together with proofs about it.

Conventions of the embedding:

* A polars `DataFrame` is a `List` of row structures; a nullable column entry
  is an `Option` value.
* Polars `==` / `!=` on columns propagate nulls (`optEq`, `optNe`): if either
  operand is null the comparison is null.  (This is why polars also offers
  `eq_missing`; the code under verification uses plain `==`.)
* `pl.when(c).then(t).otherwise(e)` treats a null condition as false, i.e. the
  row falls through to the `otherwise` branch (`whenOtherwise`); polars
  combines the condition's validity mask into the choice mask, nulls choosing
  the `otherwise` side.
* `DataFrame.filter` keeps exactly the rows whose predicate is `some true`:
  rows with a null predicate are dropped.
* Python float arithmetic on `val_ratio` is embedded exactly over `ℚ`
  (all concrete inputs used below are exactly representable as doubles, so no
  rounding discrepancy arises at them), `int(...)` is truncation toward zero
  (`ratTrunc`) and the built-in `round(...)` is round-half-to-even
  (`pyRound`).
-/

/-- Polars `==` on two nullable column entries: null propagates (polars `eq`,
as opposed to `eq_missing`). -/
def optEq {α : Type} [DecidableEq α] : Option α → Option α → Option Bool
  | some a, some b => some (decide (a = b))
  | _, _ => none

/-- Polars `!=` on two nullable column entries: null propagates. -/
def optNe {α : Type} [DecidableEq α] : Option α → Option α → Option Bool
  | some a, some b => some (decide (¬ a = b))
  | _, _ => none

/-- Polars `pl.when(c).then(t).otherwise(e)`: the `then` branch is chosen
exactly when the condition is `some true`; a false or null condition selects
the `otherwise` branch. -/
def whenOtherwise {α : Type} : Option Bool → Option α → Option α → Option α
  | some true, t, _ => t
  | _, _, e => e

/-- Python `int(q)` on an exact rational: truncation toward zero. -/
def ratTrunc (q : ℚ) : Int :=
  if 0 ≤ q.num then ((q.num.toNat / q.den : Nat) : Int)
  else -(((-q.num).toNat / q.den : Nat) : Int)

/-- Python built-in `round(q)` on an exact rational: round half to even. -/
def pyRound (q : ℚ) : Int :=
  let f : Int := ⌊q⌋
  let r : ℚ := q - (f : ℚ)
  if r < 1/2 then f
  else if 1/2 < r then f + 1
  else if f % 2 = 0 then f else f + 1

section Split

/-- A row as seen by `WorldCup2022Dataset._split_by_worldcup_phase`
(lines 79–100): only the `gameId` column is inspected; `payload`
stands for the remaining columns of the row and makes rows with equal
`gameId` distinguishable. -/
structure SRow where
  gameId : Int
  payload : Nat
deriving DecidableEq

/-- Line 89: `df.select(["gameId"]).unique().sort("gameId")` — the distinct
match identifiers of the table, sorted ascending. -/
def gameIdsSorted (df : List SRow) : List Int :=
  List.insertionSort (· ≤ ·) (df.map (·.gameId)).dedup

/-- Line 92: `n_train_games = int((1.0 - val_ratio) * n_games)` (`vr` is the
`val_ratio` argument).  Clamped to `Nat` because it is used as a slice
length. -/
def nTrainGames (df : List SRow) (vr : ℚ) : Nat :=
  (ratTrunc ((1 - vr) * ((gameIdsSorted df).length : ℚ))).toNat

/-- Lines 89–100, `WorldCup2022Dataset._split_by_worldcup_phase`: sort the
distinct `gameId`s, slice the first `n_train_games` of them as training
identifiers and the rest (`slice(n_train_games, n_games)`) as validation
identifiers, then semi-join the row table against each identifier list. -/
def splitByWorldcupPhase (df : List SRow) (vr : ℚ) : List SRow × List SRow :=
  (df.filter (fun r =>
      decide (r.gameId ∈ (gameIdsSorted df).take (nTrainGames df vr))),
   df.filter (fun r =>
      decide (r.gameId ∈
        (((gameIdsSorted df).drop (nTrainGames df vr)).take
          (gameIdsSorted df).length))))

/-- The split as §4.2 of the specification words it, with `round`: the first
`round((1 - ratio) * count)` sorted distinct identifiers go to training and
the remaining identifiers to validation, rows selected by semi-join. -/
def splitSpecRound (df : List SRow) (vr : ℚ) : List SRow × List SRow :=
  (df.filter (fun r =>
      decide (r.gameId ∈ (gameIdsSorted df).take
        (pyRound ((1 - vr) * ((gameIdsSorted df).length : ℚ))).toNat)),
   df.filter (fun r =>
      decide (r.gameId ∈ (gameIdsSorted df).drop
        (pyRound ((1 - vr) * ((gameIdsSorted df).length : ℚ))).toNat)))

/-- The split as amended: identical to `splitSpecRound` except that the
training-match count is `int((1 - ratio) * count)` — truncation toward
zero — instead of `round(...)`; validation takes all remaining
identifiers. -/
def splitSpecTrunc (df : List SRow) (vr : ℚ) : List SRow × List SRow :=
  (df.filter (fun r =>
      decide (r.gameId ∈ (gameIdsSorted df).take
        (ratTrunc ((1 - vr) * ((gameIdsSorted df).length : ℚ))).toNat)),
   df.filter (fun r =>
      decide (r.gameId ∈ (gameIdsSorted df).drop
        (ratTrunc ((1 - vr) * ((gameIdsSorted df).length : ℚ))).toNat)))

/-- A table with two matches (identifiers 1 and 2), one row each; the
payloads keep the rows distinguishable. -/
def exTwoMatches : List SRow := [⟨1, 10⟩, ⟨2, 20⟩]

/-- A table with three matches (identifiers 1, 2, 3), one row each. -/
def exThreeMatches : List SRow := [⟨1, 10⟩, ⟨2, 20⟩, ⟨3, 30⟩]

/-- A table with a single match (identifier 1). -/
def exOneMatch : List SRow := [⟨1, 10⟩]

end Split

section ProcessTrace

/-- A call made on the fitted preprocessor object. -/
inductive PrepCall where
  | fitTransform
  | transformOnly
deriving DecidableEq

/-- The data partition passed to a preprocessor call. -/
inductive DataPart where
  | train
  | val
deriving DecidableEq

/-- One preprocessor invocation: which method was called, and on which
partition. -/
structure TraceEntry where
  call : PrepCall
  arg : DataPart
deriving DecidableEq

/-- `WorldCup2022Dataset.process`, lines 446–449: the (straight-line)
sequence of preprocessor invocations in one dataset build —
`preprocessor.fit_transform(train_df)` followed by
`preprocessor.transform(val_df)`. -/
def processPrepTrace : List TraceEntry :=
  [⟨.fitTransform, .train⟩, ⟨.transformOnly, .val⟩]

/-- Monitor for the fitted-state discipline: the state component records
which partition the preprocessor was last fit on (`none` before any fit);
the log records, for every invocation, the partition transformed and the
fitted state used by that invocation (`fit_transform` first refits on its
argument, then transforms with that fresh state). -/
def stepPrep (acc : Option DataPart × List (DataPart × Option DataPart))
    (e : TraceEntry) : Option DataPart × List (DataPart × Option DataPart) :=
  match e.call with
  | .fitTransform => (some e.arg, acc.2 ++ [(e.arg, some e.arg)])
  | .transformOnly => (acc.1, acc.2 ++ [(e.arg, acc.1)])

/-- Run the fitted-state monitor over a trace, starting unfitted. -/
def runPrep (t : List TraceEntry) : Option DataPart × List (DataPart × Option DataPart) :=
  t.foldl stepPrep (none, [])

end ProcessTrace

theorem mem_gameIdsSorted {df : List SRow} {g : Int} :
    g ∈ gameIdsSorted df ↔ g ∈ df.map (·.gameId) := by
  unfold gameIdsSorted
  rw [(List.perm_insertionSort _ _).mem_iff, List.mem_dedup]

theorem nodup_gameIdsSorted (df : List SRow) : (gameIdsSorted df).Nodup := by
  unfold gameIdsSorted
  exact (List.perm_insertionSort _ _).nodup_iff.mpr (List.nodup_dedup _)

theorem valIds_take_eq (df : List SRow) (n : Nat) :
    ((gameIdsSorted df).drop n).take (gameIdsSorted df).length =
      (gameIdsSorted df).drop n :=
  (List.take_eq_self_iff _).mpr (by rw [List.length_drop]; exact Nat.sub_le _ _)

theorem split_mem_fst_ids {df : List SRow} {vr : ℚ} {g : Int} :
    g ∈ (splitByWorldcupPhase df vr).1.map (·.gameId) ↔
      g ∈ df.map (·.gameId) ∧
        g ∈ (gameIdsSorted df).take (nTrainGames df vr) := by
  simp only [splitByWorldcupPhase, List.mem_map, List.mem_filter,
    decide_eq_true_eq]
  constructor
  · rintro ⟨r, ⟨hr, hmem⟩, rfl⟩
    exact ⟨⟨r, hr, rfl⟩, hmem⟩
  · rintro ⟨⟨r, hr, rfl⟩, hmem⟩
    exact ⟨r, ⟨hr, hmem⟩, rfl⟩

theorem split_mem_snd_ids {df : List SRow} {vr : ℚ} {g : Int} :
    g ∈ (splitByWorldcupPhase df vr).2.map (·.gameId) ↔
      g ∈ df.map (·.gameId) ∧
        g ∈ (gameIdsSorted df).drop (nTrainGames df vr) := by
  simp only [splitByWorldcupPhase, valIds_take_eq, List.mem_map,
    List.mem_filter, decide_eq_true_eq]
  constructor
  · rintro ⟨r, ⟨hr, hmem⟩, rfl⟩
    exact ⟨⟨r, hr, rfl⟩, hmem⟩
  · rintro ⟨⟨r, hr, rfl⟩, hmem⟩
    exact ⟨r, ⟨hr, hmem⟩, rfl⟩

/-- C1: in one dataset build (`process`, lines 446–449), `fit_transform` is
invoked exactly once and its argument is the training partition; the
validation partition is only ever passed to `transform`; and, by the
fitted-state monitor, both the training and the validation transforms use
the state produced by that single fit on the training partition. -/
theorem c1_fit_once_on_train_transform_val :
    ((processPrepTrace.filter (fun e => e.call = .fitTransform)).map
        (fun e => e.arg) = [DataPart.train]) ∧
    (∀ e ∈ processPrepTrace, e.arg = DataPart.val →
        e.call = PrepCall.transformOnly) ∧
    runPrep processPrepTrace =
      (some DataPart.train,
        [(DataPart.train, some DataPart.train), (DataPart.val, some DataPart.train)]) := by
  refine ⟨by decide, ?_, by decide⟩
  intro e he hv
  fin_cases he <;> simp_all

/-- C1 witness: the second conjunct instantiated at the sole
validation-partition entry of the trace. -/
theorem c1_fit_once_on_train_transform_val_witness :
    (⟨PrepCall.transformOnly, DataPart.val⟩ : TraceEntry) ∈ processPrepTrace ∧
    PrepCall.transformOnly = PrepCall.transformOnly :=
  ⟨by decide,
    c1_fit_once_on_train_transform_val.2.1 ⟨.transformOnly, .val⟩
      (by decide) rfl⟩

/-- C2: for every input table and every validation ratio in the configured
range (0, 1), the match-identifier sets of the two partitions produced by
`_split_by_worldcup_phase` are disjoint and their union is exactly the set
of identifiers present in the input; moreover, on a table with exactly two
matches (identifiers 1 and 2) and `val_ratio = 0.5`, match 1 goes to the
training output, match 2 to the validation output, and no row appears in
both outputs. -/
theorem c2_split_ids_disjoint_exhaustive :
    (∀ (df : List SRow) (vr : ℚ), 0 < vr → vr < 1 →
      (∀ g : Int,
        ¬ (g ∈ (splitByWorldcupPhase df vr).1.map (·.gameId) ∧
            g ∈ (splitByWorldcupPhase df vr).2.map (·.gameId))) ∧
      (∀ g : Int,
        g ∈ df.map (·.gameId) ↔
          g ∈ (splitByWorldcupPhase df vr).1.map (·.gameId) ∨
            g ∈ (splitByWorldcupPhase df vr).2.map (·.gameId))) ∧
    splitByWorldcupPhase exTwoMatches (1/2) = ([⟨1, 10⟩], [⟨2, 20⟩]) := by
  constructor
  · intro df vr _ _
    constructor
    · rintro g ⟨h1, h2⟩
      exact List.disjoint_take_drop (nodup_gameIdsSorted df) le_rfl
        (split_mem_fst_ids.mp h1).2 (split_mem_snd_ids.mp h2).2
    · intro g
      constructor
      · intro hg
        have hS : g ∈ gameIdsSorted df := mem_gameIdsSorted.mpr hg
        rw [← List.take_append_drop (nTrainGames df vr) (gameIdsSorted df),
          List.mem_append] at hS
        rcases hS with h | h
        · exact Or.inl (split_mem_fst_ids.mpr ⟨hg, h⟩)
        · exact Or.inr (split_mem_snd_ids.mpr ⟨hg, h⟩)
      · rintro (h | h)
        · exact (split_mem_fst_ids.mp h).1
        · exact (split_mem_snd_ids.mp h).1
  · have hn : nTrainGames exTwoMatches (1/2) = 1 := by
      have hids : gameIdsSorted exTwoMatches = [1, 2] := by decide
      rw [nTrainGames, hids]; norm_num [ratTrunc]
    simp only [splitByWorldcupPhase, hn]
    decide

/-- C2 witness: the quantified part instantiated at the two-match table with
ratio 1/2; both hypotheses hold there. -/
theorem c2_split_ids_disjoint_exhaustive_witness :
    (∀ g : Int,
      ¬ (g ∈ (splitByWorldcupPhase exTwoMatches (1/2)).1.map (·.gameId) ∧
          g ∈ (splitByWorldcupPhase exTwoMatches (1/2)).2.map (·.gameId))) ∧
    (∀ g : Int,
      g ∈ exTwoMatches.map (·.gameId) ↔
        g ∈ (splitByWorldcupPhase exTwoMatches (1/2)).1.map (·.gameId) ∨
          g ∈ (splitByWorldcupPhase exTwoMatches (1/2)).2.map (·.gameId)) :=
  c2_split_ids_disjoint_exhaustive.1 exTwoMatches (1/2)
    (by norm_num) (by norm_num)

/-- C3 counterexample: on a table with three matches and `val_ratio = 0.5`
the code's split differs from the claimed `round`-based split: the code
computes `int((1 - 0.5) * 3) = 1` training match, while
`round((1 - 0.5) * 3) = round(1.5) = 2` (Python rounds half to even), so
the claimed algorithm would put two matches in training. -/
theorem c3_round_counterexample :
    splitByWorldcupPhase exThreeMatches (1/2) ≠
      splitSpecRound exThreeMatches (1/2) := by
  have hids : gameIdsSorted exThreeMatches = [1, 2, 3] := by decide
  have h1 : nTrainGames exThreeMatches (1/2) = 1 := by
    rw [nTrainGames, hids]; norm_num [ratTrunc]
  have h2 : (pyRound ((1 - (1/2 : ℚ)) *
      ((gameIdsSorted exThreeMatches).length : ℚ))).toNat = 2 := by
    rw [hids]; norm_num [pyRound]; rfl
  simp only [splitByWorldcupPhase, splitSpecRound, h1, h2]
  decide

/-- C3 as amended: `_split_by_worldcup_phase` computes the sorted distinct
match identifiers, assigns the first `int((1 - val_ratio) * count)` of them
(truncation toward zero, not `round`) to training and all remaining
identifiers to validation, and selects each output by semi-joining the rows
against the respective identifier list. -/
theorem c3_split_matches_spec_trunc (df : List SRow) (vr : ℚ)
    (h0 : 0 < vr) (h1 : vr < 1) :
    splitByWorldcupPhase df vr = splitSpecTrunc df vr := by
  simp only [splitByWorldcupPhase, splitSpecTrunc, nTrainGames, valIds_take_eq]

/-- C3 witness: the amended statement instantiated at the three-match table
with ratio 1/2. -/
theorem c3_split_matches_spec_trunc_witness :
    splitByWorldcupPhase exThreeMatches (1/2) =
      splitSpecTrunc exThreeMatches (1/2) :=
  c3_split_matches_spec_trunc exThreeMatches (1/2) (by norm_num) (by norm_num)

/-- C4: the code does not validate the split.  On a table with a single
match and `val_ratio = 0.5` (so `int(0.5 * 1) = 0` training matches), and on
a table with no matches at all, `_split_by_worldcup_phase` returns
normally with an empty training partition (resp. two empty partitions)
instead of failing with a configuration error as the specification
requires. -/
theorem c4_empty_partition_not_rejected :
    splitByWorldcupPhase exOneMatch (1/2) = ([], exOneMatch) ∧
    splitByWorldcupPhase ([] : List SRow) (1/2) = ([], []) := by
  constructor
  · have hn : nTrainGames exOneMatch (1/2) = 0 := by
      have hids : gameIdsSorted exOneMatch = [1] := by decide
      rw [nTrainGames, hids]; norm_num [ratTrunc]
    simp only [splitByWorldcupPhase, hn]
    decide
  · decide

section Possession

/-- A row as it enters the possession-attribution step of
`_prepare_dataframe` (lines 199–213): ball rows have already been removed,
`is_ball_carrier` has already been computed. -/
structure GRow where
  gameEventId : Int
  possessionEventId : Int
  team : Option String
  is_ball_carrier : Int
deriving DecidableEq

/-- Two rows belong to the same `over(["gameEventId", "possessionEventId"])`
window. -/
def sameGroup (r s : GRow) : Bool :=
  r.gameEventId == s.gameEventId && r.possessionEventId == s.possessionEventId

/-- Lines 200–205:
`pl.col("team").filter(pl.col("is_ball_carrier") == 1).first().over(...)` —
within the row's group, the `team` entry of the first ball-carrying row
(null when the group has no ball carrier). -/
def possession_team_tmp (df : List GRow) (r : GRow) : Option String :=
  (((df.filter (fun s => sameGroup r s)).filter
      (fun s => s.is_ball_carrier == 1)).head?).bind (·.team)

/-- Lines 207–211:
`(pl.col("team") == pl.col("possession_team_tmp")).cast(pl.Int8)` —
null-propagating equality, true ↦ 1, false ↦ 0, null ↦ null. -/
def is_possession_team (df : List GRow) (r : GRow) : Option Int :=
  (optEq r.team (possession_team_tmp df r)).map (fun b => if b then 1 else 0)

/-- Lines 199–213 as a whole: attach `is_possession_team` to every row and
then `drop_nulls(["is_possession_team"])` — rows whose flag is null are
removed, the survivors carry a definite 0/1 flag. -/
def possessionStep (df : List GRow) : List (GRow × Int) :=
  df.filterMap (fun r => (is_possession_team df r).map (fun v => (r, v)))

/-- The group's ball-carrying row as the specification words it: the first
row of the same group flagged as ball carrier. -/
def carrierOf (df : List GRow) (r : GRow) : Option GRow :=
  df.find? (fun s => s.is_ball_carrier == 1 && sameGroup r s)

/-- A table with one fully-attributed group (game event 1: a home ball
carrier and an away player) and one carrier-less group (game event 2). -/
def exPossDf : List GRow :=
  [⟨1, 1, some "home", 1⟩, ⟨1, 1, some "away", 0⟩, ⟨2, 2, some "home", 0⟩]

end Possession

theorem head?_filter_eq_find? (p : α → Bool) (l : List α) :
    (l.filter p).head? = l.find? p := by
  induction l with
  | nil => rfl
  | cons a l ih =>
    by_cases h : p a <;> simp [List.filter_cons, List.find?, h, ih]

theorem possession_team_tmp_eq_carrier (df : List GRow) (r : GRow) :
    possession_team_tmp df r = (carrierOf df r).bind (·.team) := by
  rw [possession_team_tmp, carrierOf, List.filter_filter,
    ← head?_filter_eq_find?]

/-- C5: after the possession-attribution step every surviving row carries a
non-null `is_possession_team` flag in {0, 1}; the flag is 1 exactly when the
row's team equals the team of the group's ball-carrying row; every row of a
group with no ball carrier is dropped; and (given the guarantee of the
preceding filter that `team` is non-null) every row of a group that does
have a ball carrier survives. -/
theorem c5_possession_flag_total (df : List GRow) :
    (∀ p ∈ possessionStep df, p.2 = 0 ∨ p.2 = 1) ∧
    (∀ p ∈ possessionStep df,
      (p.2 = 1 ↔ ∃ t : String, p.1.team = some t ∧
        (carrierOf df p.1).bind (·.team) = some t)) ∧
    (∀ r ∈ df, carrierOf df r = none →
      ∀ v : Int, (r, v) ∉ possessionStep df) ∧
    ((∀ r ∈ df, (r.team).isSome = true) →
      ∀ r ∈ df, (∃ c, carrierOf df r = some c) →
        ∃ v : Int, (r, v) ∈ possessionStep df) := by
  refine ⟨?_, ?_, ?_, ?_⟩
  · intro p hp
    rw [possessionStep, List.mem_filterMap] at hp
    obtain ⟨r, _, hr⟩ := hp
    rcases h : is_possession_team df r with _ | b
    · rw [h] at hr; simp at hr
    · rw [h] at hr
      simp only [Option.map_some'] at hr
      rw [is_possession_team] at h
      rcases hq : optEq r.team (possession_team_tmp df r) with _ | b2
      · rw [hq] at h; simp at h
      · rw [hq] at h
        simp only [Option.map_some', Option.some.injEq] at h
        cases hr
        cases b2 <;> simp [← h]
  · intro p hp
    rw [possessionStep, List.mem_filterMap] at hp
    obtain ⟨r, _, hr⟩ := hp
    rcases h : is_possession_team df r with _ | v
    · rw [h] at hr; simp at hr
    · rw [h] at hr
      simp only [Option.map_some', Option.some.injEq] at hr
      rw [is_possession_team] at h
      rcases hteam : r.team with _ | t
      · rw [hteam] at h; simp [optEq] at h
      · rcases hptt : possession_team_tmp df r with _ | t2
        · rw [hteam, hptt] at h; simp [optEq] at h
        · rw [hteam, hptt] at h
          simp only [optEq, Option.map_some', Option.some.injEq] at h
          rw [possession_team_tmp_eq_carrier] at hptt
          cases hr
          constructor
          · intro hv
            refine ⟨t, hteam, ?_⟩
            rw [hptt]
            by_cases he : t = t2
            · rw [he]
            · rw [← h] at hv
              simp [he] at hv
          · rintro ⟨t3, ht3, hc3⟩
            rw [hteam, Option.some.injEq] at ht3
            rw [hptt, Option.some.injEq] at hc3
            subst ht3; subst hc3
            simp at h
            omega
  · intro r hr hnone v hmem
    rw [possessionStep, List.mem_filterMap] at hmem
    obtain ⟨a, _, ha⟩ := hmem
    rcases h : is_possession_team df a with _ | w
    · rw [h] at ha; simp at ha
    · rw [h] at ha
      simp only [Option.map_some', Option.some.injEq, Prod.mk.injEq] at ha
      obtain ⟨ha1, rfl⟩ := ha
      rw [ha1, is_possession_team, possession_team_tmp_eq_carrier, hnone] at h
      rcases h2 : r.team with _ | t <;> rw [h2] at h <;> simp [optEq] at h
  · intro hall r hr ⟨c, hc⟩
    have hcmem : c ∈ df := List.mem_of_find?_eq_some hc
    have hct : (c.team).isSome = true := hall c hcmem
    have hrt : (r.team).isSome = true := hall r hr
    rcases hteam : r.team with _ | t
    · rw [hteam] at hrt; simp at hrt
    · rcases hcteam : c.team with _ | tc
      · rw [hcteam] at hct; simp at hct
      · refine ⟨if t = tc then 1 else 0, ?_⟩
        rw [possessionStep, List.mem_filterMap]
        refine ⟨r, hr, ?_⟩
        rw [is_possession_team, possession_team_tmp_eq_carrier, hc]
        by_cases he : t = tc <;> simp [hteam, hcteam, optEq, he]

/-- C5 witness: on the concrete table `exPossDf`, the row of the
carrier-less group is dropped (for flag value 0, and the theorem rules out
every other value likewise), while the home row of the attributed group
survives with some flag value. -/
theorem c5_possession_flag_total_witness :
    ((⟨2, 2, some "home", 0⟩ : GRow), (0 : Int)) ∉ possessionStep exPossDf ∧
    (∃ v : Int,
      ((⟨1, 1, some "home", 1⟩ : GRow), v) ∈ possessionStep exPossDf) :=
  ⟨(c5_possession_flag_total exPossDf).2.2.1 ⟨2, 2, some "home", 0⟩
      (by decide) (by decide) 0,
    (c5_possession_flag_total exPossDf).2.2.2 (by decide)
      ⟨1, 1, some "home", 1⟩ (by decide)
      ⟨⟨1, 1, some "home", 1⟩, by decide⟩⟩

section AttackDirection

/-- Lines 215–223 of `_prepare_dataframe`: a team attacks toward the right
goal exactly in the four home/away × start-side × half combinations listed
in the source (`h` = the row's team is the home team, `l` =
`homeTeamStartLeft`, `s` = the frame is in the second half). -/
def is_goal_right (h l s : Bool) : Bool :=
  (h && l && !s) || (h && !l && s) || (!h && !l && !s) || (!h && l && s)

/-- Lines 224–229: `pl.when(is_goal_right).then(X_GOAL_RIGHT)
.otherwise(X_GOAL_LEFT)`, parametrized by the two goal abscissas from
`soccerai.data.config`. -/
def x_goal_assign (xr xl : ℚ) (h l s : Bool) : ℚ :=
  if is_goal_right h l s then xr else xl

/-- Line 230: `pl.lit(Y_GOAL)` — the goal ordinate is a row-independent
literal. -/
def y_goal_assign (yg : ℚ) (_h _l _s : Bool) : ℚ := yg

end AttackDirection

/-- C6: simultaneously negating home-team membership and the second-half
indicator leaves `is_goal_right`, and with it the assigned goal abscissa,
unchanged; the four disjuncts of `is_goal_right` are mutually exclusive;
and the goal ordinate is the same constant for all rows. -/
theorem c6_attack_direction_symmetric :
    (∀ h l s : Bool, is_goal_right (!h) l (!s) = is_goal_right h l s) ∧
    (∀ (xr xl : ℚ) (h l s : Bool),
      x_goal_assign xr xl (!h) l (!s) = x_goal_assign xr xl h l s) ∧
    (∀ h l s : Bool,
      ([h && l && !s, h && !l && s, !h && !l && !s,
          !h && l && s].count true) ≤ 1) ∧
    (∀ (yg : ℚ) (h l s h2 l2 s2 : Bool),
      y_goal_assign yg h l s = y_goal_assign yg h2 l2 s2) := by
  refine ⟨by decide, ?_, by decide, fun _ _ _ _ _ _ _ => rfl⟩
  intro xr xl h l s
  rw [x_goal_assign, x_goal_assign]
  cases h <;> cases l <;> cases s <;> rfl

section CarrierFlag

/-- Lines 163–167 of `_prepare_dataframe`:
`pl.when(pl.col("playerName") == pl.col("playerName_right")).then(1)
.otherwise(0)` — the `is_ball_carrier` expression on one row's pair of
(nullable) name columns. -/
def is_ball_carrier_expr (playerName playerName_right : Option String) :
    Option Int :=
  whenOtherwise (optEq playerName playerName_right) (some 1) (some 0)

end CarrierFlag

/-- C10: the derived `is_ball_carrier` value is total over {0, 1} and never
null; in particular a null `playerName_right` does not propagate null
through the equality test — the null comparison makes the `when` condition
null, which selects the `otherwise` branch, so the row receives 0. -/
theorem c10_ball_carrier_never_null :
    (∀ pn pnr : Option String,
      is_ball_carrier_expr pn pnr = some 0 ∨
        is_ball_carrier_expr pn pnr = some 1) ∧
    (∀ pn : Option String, is_ball_carrier_expr pn none = some 0) := by
  constructor
  · intro pn pnr
    rcases pn with _ | a
    · left; rfl
    · rcases pnr with _ | b
      · left; rfl
      · by_cases h : a = b <;>
          simp [is_ball_carrier_expr, optEq, whenOtherwise, h]
  · intro pn
    rcases pn with _ | a <;> rfl

section AgeBands

/-- Lines 170–179 of `_prepare_dataframe`: the chained
`pl.when(age < 20)...otherwise("35+")` age-bucketing expression on one
row's (nullable) `age` value; a literal compared with null gives a null
condition, which falls through. -/
def ageBucketExpr (age : Option Int) : Option String :=
  whenOtherwise (age.map (fun a => decide (a < 20))) (some "Under 20")
    (whenOtherwise (age.map (fun a => decide (a < 29))) (some "20-28")
      (whenOtherwise (age.map (fun a => decide (a < 35))) (some "29-35")
        (some "35+")))

end AgeBands

/-- C9: the age value is bucketed into exactly four ordinal bands with the
fixed thresholds 20, 29, 35: ages below 20 map to "Under 20", ages in
[20, 29) to "20-28", ages in [29, 35) to "29-35" and ages of 35 and above
to "35+". -/
theorem c9_age_bands (a : Int) :
    (a < 20 → ageBucketExpr (some a) = some "Under 20") ∧
    (20 ≤ a → a < 29 → ageBucketExpr (some a) = some "20-28") ∧
    (29 ≤ a → a < 35 → ageBucketExpr (some a) = some "29-35") ∧
    (35 ≤ a → ageBucketExpr (some a) = some "35+") := by
  refine ⟨?_, ?_, ?_, ?_⟩
  · intro h
    simp [ageBucketExpr, whenOtherwise, h]
  · intro h1 h2
    have h0 : ¬ a < 20 := by omega
    simp [ageBucketExpr, whenOtherwise, h0, h2]
  · intro h1 h2
    have h0 : ¬ a < 20 := by omega
    have h0b : ¬ a < 29 := by omega
    simp [ageBucketExpr, whenOtherwise, h0, h0b, h2]
  · intro h
    have h0 : ¬ a < 20 := by omega
    have h0b : ¬ a < 29 := by omega
    have h0c : ¬ a < 35 := by omega
    simp [ageBucketExpr, whenOtherwise, h0, h0b, h0c]

/-- C9 witness: age 19 lands in "Under 20", age 29 in "29-35" and age 40 in
"35+". -/
theorem c9_age_bands_witness :
    ageBucketExpr (some 19) = some "Under 20" ∧
    ageBucketExpr (some 29) = some "29-35" ∧
    ageBucketExpr (some 40) = some "35+" :=
  ⟨(c9_age_bands 19).1 (by norm_num),
    (c9_age_bands 29).2.2.1 (by norm_num) (by norm_num),
    (c9_age_bands 40).2.2.2 (by norm_num)⟩

section BallBroadcast

/-- A row as it enters the ball-feature broadcast of `_prepare_dataframe`
(lines 135–145): velocity has already been decomposed into `vx`, `vy` with
the `cos`/`sin` helper columns, and ball rows (null `team`) are still
present. -/
structure BRow where
  gameEventId : Int
  possessionEventId : Int
  team : Option String
  playerName : Option String
  possessionEventType : Option String
  x : Option ℚ
  y : Option ℚ
  z : Option ℚ
  cos : Option ℚ
  sin : Option ℚ
  vx : Option ℚ
  vy : Option ℚ
deriving DecidableEq

/-- The same row after the broadcast and the subsequent `.drop("z")`: the
raw `z` column is gone, the seven broadcast `*_ball` columns have been
added. -/
structure BRowOut where
  gameEventId : Int
  possessionEventId : Int
  team : Option String
  playerName : Option String
  possessionEventType : Option String
  x : Option ℚ
  y : Option ℚ
  cos : Option ℚ
  sin : Option ℚ
  vx : Option ℚ
  vy : Option ℚ
  x_ball : Option ℚ
  y_ball : Option ℚ
  z_ball : Option ℚ
  cos_ball : Option ℚ
  sin_ball : Option ℚ
  vx_ball : Option ℚ
  vy_ball : Option ℚ
deriving DecidableEq

/-- Two rows belong to the same
`over("gameEventId", "possessionEventId")` window. -/
def bSameGroup (r s : BRow) : Bool :=
  r.gameEventId == s.gameEventId && r.possessionEventId == s.possessionEventId

/-- Lines 137–144:
`pl.col(c).filter(pl.col("team").is_null()).first().over(...)` — the column
entry `f` of the first null-team (ball) row of the row's group; null when
the group has no ball row. -/
def ballVal (df : List BRow) (r : BRow) (f : BRow → Option ℚ) : Option ℚ :=
  (((df.filter (fun s => bSameGroup r s)).filter
      (fun s => s.team.isNone)).head?).bind f

/-- Line 143: the source columns whose values the broadcast copies into
`{c}_ball` columns — note that `"z"` is among them. -/
def ballBroadcastSrcCols : List String :=
  ["x", "y", "z", "cos", "sin", "vx", "vy"]

/-- Lines 266–276 of `_create_preprocessor`: the `ball_cols` feature-name
list of the ball branch — note that it contains `"z_ball"`. -/
def ball_cols : List String :=
  ["x_ball", "y_ball", "z_ball", "height_cm", "cos_ball", "sin_ball",
    "vx_ball", "vy_ball"]

/-- Lines 136–145 applied to one row: attach the seven broadcast columns
and drop the raw `z` column. -/
def ballBroadcastRow (df : List BRow) (r : BRow) : BRowOut :=
  { gameEventId := r.gameEventId
    possessionEventId := r.possessionEventId
    team := r.team
    playerName := r.playerName
    possessionEventType := r.possessionEventType
    x := r.x
    y := r.y
    cos := r.cos
    sin := r.sin
    vx := r.vx
    vy := r.vy
    x_ball := ballVal df r (·.x)
    y_ball := ballVal df r (·.y)
    z_ball := ballVal df r (·.z)
    cos_ball := ballVal df r (·.cos)
    sin_ball := ballVal df r (·.sin)
    vx_ball := ballVal df r (·.vx)
    vy_ball := ballVal df r (·.vy) }

/-- Lines 136–145 (the `include_ball_features` branch) over the whole
table. -/
def ballBroadcast (df : List BRow) : List BRowOut :=
  df.map (ballBroadcastRow df)

/-- Lines 147–151: drop ball rows (null team), rows whose possession event
is a shot ("SH"; a null event type also fails the null-propagating `!=`
filter) and rows without a resolved player name. -/
def postBallFilters (df : List BRowOut) : List BRowOut :=
  ((df.filter (fun r => r.team.isSome)).filter
      (fun r => decide (optNe r.possessionEventType (some "SH") = some true))).filter
    (fun r => r.playerName.isSome)

/-- The group's ball row as the specification words it: the first row of
the same group whose team is null. -/
def ballRowOf (df : List BRow) (r : BRow) : Option BRow :=
  df.find? (fun s => s.team.isNone && bSameGroup r s)

/-- The broadcast as the specification words it: every `*_ball` column of a
row is the corresponding component of its group's ball row. -/
def specBroadcastRow (df : List BRow) (r : BRow) : BRowOut :=
  { gameEventId := r.gameEventId
    possessionEventId := r.possessionEventId
    team := r.team
    playerName := r.playerName
    possessionEventType := r.possessionEventType
    x := r.x
    y := r.y
    cos := r.cos
    sin := r.sin
    vx := r.vx
    vy := r.vy
    x_ball := (ballRowOf df r).bind (·.x)
    y_ball := (ballRowOf df r).bind (·.y)
    z_ball := (ballRowOf df r).bind (·.z)
    cos_ball := (ballRowOf df r).bind (·.cos)
    sin_ball := (ballRowOf df r).bind (·.sin)
    vx_ball := (ballRowOf df r).bind (·.vx)
    vy_ball := (ballRowOf df r).bind (·.vy) }

/-- The scenario group: a ball row at (50, 30) and two player rows. -/
def exBallGroup : List BRow :=
  [⟨1, 1, none, none, some "PA", some 50, some 30, some 2, some 1, some 0,
      some 3, some 4⟩,
   ⟨1, 1, some "home", some "A", some "PA", some 10, some 20, some 0,
      some 1, some 0, some 5, some 6⟩,
   ⟨1, 1, some "away", some "B", some "PA", some 12, some 22, some 0,
      some 0, some 1, some 7, some 8⟩]

end BallBroadcast

theorem ballVal_eq_ballRowOf (df : List BRow) (r : BRow)
    (f : BRow → Option ℚ) : ballVal df r f = (ballRowOf df r).bind f := by
  rw [ballVal, ballRowOf, List.filter_filter, head?_filter_eq_find?]

theorem ballBroadcastRow_eq_spec (df : List BRow) (r : BRow) :
    ballBroadcastRow df r = specBroadcastRow df r := by
  rw [ballBroadcastRow, specBroadcastRow]
  simp only [ballVal_eq_ballRowOf]

/-- C7 counterexample: the ball's vertical coordinate IS carried as a ball
feature name — `"z"` is among the broadcast source columns of line 143 and
`"z_ball"` is an element of the preprocessor's `ball_cols` list (lines
266–276), contradicting the claim that only positional x, y and velocity
are retained as ball features. -/
theorem c7_z_ball_is_a_ball_feature :
    "z" ∈ ballBroadcastSrcCols ∧ "z_ball" ∈ ball_cols := by
  decide

/-- C7 as amended: when ball-inclusion is enabled, every one of the seven
components x, y, z, cos, sin, vx, vy of the group's ball row (the first
null-team row of the group) is broadcast onto every row of the group as
the corresponding `*_ball` column, the raw `z` column is dropped
afterwards but `z_ball` is kept as a ball feature name; in particular, in
a group with a ball row at x = 50, y = 30 and two player rows, both
surviving player rows carry `x_ball = 50`, `y_ball = 30`. -/
theorem c7_ball_broadcast :
    (∀ df : List BRow, ballBroadcast df = df.map (specBroadcastRow df)) ∧
    "z_ball" ∈ ball_cols ∧
    (postBallFilters (ballBroadcast exBallGroup)).map
        (fun r => (r.playerName, r.x_ball, r.y_ball)) =
      [(some "A", some 50, some 30), (some "B", some 50, some 30)] := by
  refine ⟨?_, by decide, by decide⟩
  intro df
  rw [ballBroadcast]
  exact List.map_congr_left (fun r _ => ballBroadcastRow_eq_spec df r)

section OneHot

/-- Modelled from the spec: the categorical branch of
`_create_preprocessor` (lines 325–338) delegates to scikit-learn's
`OneHotEncoder(handle_unknown="ignore", drop="if_binary",
sparse_output=False)`, whose implementation is outside this repository.
Fitting a single categorical column collects the distinct category values
seen in the training column, in sorted order. -/
def oneHotFit (train : List String) : List String :=
  List.insertionSort (· ≤ ·) train.dedup

/-- Modelled from the spec: transforming one value against the fitted
vocabulary produces one indicator column per fitted category —
except that a binary vocabulary collapses to the single indicator of its
second category (`drop="if_binary"` drops the first). -/
def oneHotTransform (cats : List String) (v : String) : List Nat :=
  if cats.length = 2 then (cats.drop 1).map (fun c => if v = c then 1 else 0)
  else cats.map (fun c => if v = c then 1 else 0)

/-- Modelled from the spec: the `handle_unknown` policy.  With
`"ignore"` (the configuration at line 334) a value outside the fitted
vocabulary still encodes (to all zeros); with the default erroring policy
it would fail. -/
def oneHotTransformChecked (handleUnknownIgnore : Bool) (cats : List String)
    (v : String) : Option (List Nat) :=
  if cats.contains v || handleUnknownIgnore then some (oneHotTransform cats v)
  else none

end OneHot

theorem mem_oneHotFit {train : List String} {v : String} :
    v ∈ oneHotFit train ↔ v ∈ train := by
  rw [oneHotFit, (List.perm_insertionSort _ _).mem_iff, List.mem_dedup]

/-- C8: transforming a category value absent from the training data with
the fitted categorical branch (configured `handle_unknown="ignore"`) does
not error and yields the all-zero encoding over that branch's one-hot
columns (also in the collapsed binary case). -/
theorem c8_unseen_category_all_zero (train : List String) (v : String)
    (hv : v ∉ train) :
    oneHotTransformChecked true (oneHotFit train) v =
      some (oneHotTransform (oneHotFit train) v) ∧
    ∀ u ∈ oneHotTransform (oneHotFit train) v, u = 0 := by
  constructor
  · rw [oneHotTransformChecked]
    simp
  · intro u hu
    have hv2 : v ∉ oneHotFit train := fun h => hv (mem_oneHotFit.mp h)
    rw [oneHotTransform] at hu
    split at hu <;>
      [obtain ⟨c, hc, rfl⟩ := List.mem_map.mp hu;
        obtain ⟨c, hc, rfl⟩ := List.mem_map.mp hu]
    · have : v ≠ c := fun he => hv2 (he ▸ List.mem_of_mem_drop hc)
      simp [this]
    · have : v ≠ c := fun he => hv2 (he ▸ hc)
      simp [this]

/-- C8 witness: the value "neutral", unseen in the two-category training
column `["home", "away"]`, transforms without error and its (binary,
collapsed) encoding is all zeros. -/
theorem c8_unseen_category_all_zero_witness :
    oneHotTransformChecked true (oneHotFit ["home", "away"]) "neutral" =
      some (oneHotTransform (oneHotFit ["home", "away"]) "neutral") ∧
    ∀ u ∈ oneHotTransform (oneHotFit ["home", "away"]) "neutral", u = 0 :=
  c8_unseen_category_all_zero ["home", "away"] "neutral" (by decide)
